import Mathlib

/-
Verification of the SignalBot core: candle aggregation, confirmed-pivot
detection, the BOS -> retest -> acceptance structure state machine, the
position lifecycle manager of src/signalbot.py, and the paper-trading
position management / risk bookkeeping of src/bot.py and src/risk.py.

Python floats are modelled as rationals (ℚ): every comparison and arithmetic
operation the claims depend on is order/field arithmetic, faithfully mirrored
over ℚ.  Timestamps of closed candles are integers (bucket-aligned), raw tick
timestamps are rationals.
-/

namespace SignalBot

/-- Candle record, mirroring the dicts {"t", "o", "h", "l", "c"} built by
`CandleBuilder` in both src/signalbot.py and src/bot.py. -/
structure Candle where
  t : ℤ
  o : ℚ
  h : ℚ
  l : ℚ
  c : ℚ
deriving DecidableEq, Repr, Inhabited

/-- Trade direction ("LONG" / "SHORT" strings in the source). -/
inductive Side where
  | LONG
  | SHORT
deriving DecidableEq, Repr

/-- Phase of an open signal trade ("PRE_TP1" / "RUNNER" in the source). -/
inductive Phase where
  | PRE_TP1
  | RUNNER
deriving DecidableEq, Repr

/-! ### src/pivots.py -/

/-- The qualification test shared by both pivot scanners: `vals[i]` is strictly
less than the `L` values `vals[i-L:i]` on its left and the `L` values
`vals[i+1:i+L+1]` on its right (Python slices become `drop`/`take`). -/
def swingLowQual (vals : List ℚ) (L i : ℕ) : Bool :=
  let pivot := vals.getD i 0
  ((vals.drop (i - L)).take L).all (fun x => decide (pivot < x)) &&
  ((vals.drop (i + 1)).take L).all (fun x => decide (pivot < x))

/-- Strictly-greater variant used by `last_confirmed_swing_high`. -/
def swingHighQual (vals : List ℚ) (L i : ℕ) : Bool :=
  let pivot := vals.getD i 0
  ((vals.drop (i - L)).take L).all (fun x => decide (x < pivot)) &&
  ((vals.drop (i + 1)).take L).all (fun x => decide (x < pivot))

/-- `last_confirmed_swing_low` from src/pivots.py: forward scan over
`range(L, n - L)` keeping the last qualifying index. -/
def last_confirmed_swing_low (lows : List ℚ) (L : ℕ) : Option ℕ :=
  if lows.length < 2 * L + 1 then none
  else
    (List.range' L (lows.length - 2 * L)).foldl
      (fun acc i => if swingLowQual lows L i then some i else acc) none

/-- `last_confirmed_swing_high` from src/pivots.py: backward scan over
`range(n - L - 1, L - 1, -1)` returning the first qualifying index. -/
def last_confirmed_swing_high (highs : List ℚ) (L : ℕ) : Option ℕ :=
  if highs.length < 2 * L + 1 then none
  else
    ((List.range' L (highs.length - 2 * L)).reverse).find?
      (fun i => swingHighQual highs L i)

/-! ### CandleBuilder (identical in src/signalbot.py and src/bot.py) -/

/-- Mutable state of a `CandleBuilder` instance. -/
structure CandleBuilder where
  tf : ℕ
  current : Option Candle
  candles : List Candle
deriving DecidableEq, Repr

/-- `CandleBuilder._bucket`: `int(ts // self.tf) * self.tf`. -/
def bucket (tf : ℕ) (ts : ℚ) : ℤ :=
  ⌊ts / (tf : ℚ)⌋ * tf

/-- `CandleBuilder.update`: assign the tick to its bucket; on a bucket change
the in-progress candle is appended to history and a fresh candle opens at the
tick's own bucket with open=high=low=close=price. -/
def CandleBuilder.update (b : CandleBuilder) (ts price : ℚ) : CandleBuilder :=
  let bk := bucket b.tf ts
  match b.current with
  | none => { b with current := some ⟨bk, price, price, price, price⟩ }
  | some cur =>
    if cur.t ≠ bk then
      { b with candles := b.candles ++ [cur],
               current := some ⟨bk, price, price, price, price⟩ }
    else
      { b with current := some { cur with h := max cur.h price,
                                          l := min cur.l price,
                                          c := price } }

/-- `CandleBuilder.last_closed`. -/
def CandleBuilder.last_closed (b : CandleBuilder) : Option Candle :=
  b.candles.getLast?

/-- A fresh builder (`CandleBuilder.__init__`). -/
def CandleBuilder.init (tf : ℕ) : CandleBuilder := ⟨tf, none, []⟩

/-- Feeding a whole tick sequence through `update`. -/
def CandleBuilder.feed (b : CandleBuilder) (ticks : List (ℚ × ℚ)) : CandleBuilder :=
  ticks.foldl (fun b tk => b.update tk.1 tk.2) b

/-! ### ATR (atr_from_candles, identical in src/signalbot.py and src/bot.py) -/

/-- `atr_from_candles`: `None` below `length+1` candles, else the simple mean
of the last `length` true ranges.  `candles[i]` for `i in range(-length, 0)`
is `candles[n - length + k]` for `k in range(length)`. -/
def atr_from_candles (candles : List Candle) (length : ℕ) : Option ℚ :=
  if candles.length < length + 1 then none
  else
    let n := candles.length
    let trs := (List.range length).map (fun k =>
      let c := candles.getD (n - length + k) default
      let prev := candles.getD (n - length + k - 1) default
      max (c.h - c.l) (max |c.h - prev.c| |c.l - prev.c|))
    some (trs.sum / (length : ℚ))

/-! ### src/signalbot.py — strategy constants -/

def ATR_LEN : ℕ := 14
def RETEST_BUF_ATR : ℚ := 30 / 100
def ACCEPT_BARS : ℕ := 2
def TP1_R_MULT : ℚ := 1
def BE_BUF_ATR : ℚ := 10 / 100
def STRUCT_PAD_ATR : ℚ := 10 / 100
def ATR_SEATBELT_MULT : ℚ := 12 / 10
def PIVOT_L : ℕ := 2

/-- `crossed_down(prev_fast, prev_slow, fast, slow)` from src/signalbot.py;
the `is not None` guards become an `Option` match. -/
def crossed_down (prev_fast prev_slow : Option ℚ) (fast slow : ℚ) : Bool :=
  match prev_fast, prev_slow with
  | some pf, some ps => decide (ps ≤ pf) && decide (fast < slow)
  | _, _ => false

/-- `crossed_up` from src/signalbot.py. -/
def crossed_up (prev_fast prev_slow : Option ℚ) (fast slow : ℚ) : Bool :=
  match prev_fast, prev_slow with
  | some pf, some ps => decide (pf ≤ ps) && decide (slow < fast)
  | _, _ => false

/-- `StructureState` of src/signalbot.py (per-symbol BOS -> retest -> accept
state).  `accCount` is a natural number: the source only ever sets it to `0`
or increments it. -/
structure StructureState where
  direction : Option Side
  bosLevel : Option ℚ
  waitingRetest : Bool
  retestRef : Option ℚ
  accCount : ℕ
  bosSwingLow : Option ℚ
  bosSwingHigh : Option ℚ
deriving DecidableEq, Repr

/-- `StructureState.__init__` / `StructureState.reset` (identical bodies). -/
def StructureState.reset : StructureState :=
  ⟨none, none, false, none, 0, none, none⟩

/-- `SignalTradeState` of src/signalbot.py.  Numeric fields that the source
only ever reads while the trade is active (`entry`, `stop_init`, `R`, `tp1`,
the running extrema) are plain rationals defaulting to `0` when cleared; the
fields the source checks against `None` (`tp1_t`, `struct_stop`, `atr_stop`,
`prev_efast5`, `prev_eslow5`) and the identity fields are `Option`s.  The
uuid `trade_id` is not modelled; `entry_t` identifies the trade. -/
structure SigState where
  active : Bool
  phase : Option Phase
  side : Option Side
  entry_t : Option ℤ
  entry : ℚ
  stop_init : ℚ
  R : ℚ
  tp1 : ℚ
  tp1_sent : Bool
  tp1_t : Option ℤ
  highest_high_since_tp1 : ℚ
  lowest_low_since_tp1 : ℚ
  struct_stop : Option ℚ
  atr_stop : Option ℚ
  prev_efast5 : Option ℚ
  prev_eslow5 : Option ℚ
deriving DecidableEq, Repr

/-- `SignalTradeState.__init__` / `SignalTradeState.clear`. -/
def SigState.clear : SigState :=
  ⟨false, none, none, none, 0, 0, 0, 0, false, none, 0, 0, none, none, none, none⟩

/-- Structured record of the JSONL trade events emitted through
`safe_append` while managing an active signal (type, price fields). -/
inductive TradeEvent where
  | stopPre (stop : ℚ)
  | tp1Hit (tp1 : ℚ)
  | runnerStop (stop : ℚ)
  | emaCross (exitPrice : ℚ)
  | timeStop (exitPrice : ℚ)
deriving DecidableEq, Repr

/-- Section "1) Manage active signal first" of `main` in src/signalbot.py
(lines 479-683): PRE_TP1 stop / TP1 handling and the RUNNER phase with
best-of protective stops, EMA-cross exit and the 60-minute time stop.
Called only when `sig.active`; the candle window `c5w`, the ATR value `a`
and the execution-timeframe EMAs are the locals computed earlier in the
loop body. -/
def manageSig (sg : SigState) (closed : Candle) (c5w : List Candle)
    (a efast5 eslow5 : ℚ) : SigState × Option TradeEvent :=
  let be_buf := a * BE_BUF_ATR
  let struct_pad := a * STRUCT_PAD_ATR
  let atr_seatbelt_dist := a * ATR_SEATBELT_MULT
  if sg.phase = some Phase.PRE_TP1 then
    if sg.side = some Side.LONG then
      if closed.l ≤ sg.stop_init then
        (SigState.clear, some (TradeEvent.stopPre sg.stop_init))
      else if ¬ sg.tp1_sent ∧ sg.tp1 ≤ closed.h then
        ({ sg with tp1_sent := true, tp1_t := some closed.t,
                   phase := some Phase.RUNNER,
                   highest_high_since_tp1 := closed.h,
                   lowest_low_since_tp1 := closed.l,
                   struct_stop := none, atr_stop := none },
         some (TradeEvent.tp1Hit sg.tp1))
      else (sg, none)
    else
      if sg.stop_init ≤ closed.h then
        (SigState.clear, some (TradeEvent.stopPre sg.stop_init))
      else if ¬ sg.tp1_sent ∧ closed.l ≤ sg.tp1 then
        ({ sg with tp1_sent := true, tp1_t := some closed.t,
                   phase := some Phase.RUNNER,
                   highest_high_since_tp1 := closed.h,
                   lowest_low_since_tp1 := closed.l,
                   struct_stop := none, atr_stop := none },
         some (TradeEvent.tp1Hit sg.tp1))
      else (sg, none)
  else if sg.phase = some Phase.RUNNER then
    let hh := max sg.highest_high_since_tp1 closed.h
    let ll := min sg.lowest_low_since_tp1 closed.l
    let be_stop := if sg.side = some Side.LONG then sg.entry + be_buf else sg.entry - be_buf
    let struct_stop :=
      match sg.tp1_t with
      | none => sg.struct_stop
      | some t1 =>
        if sg.side = some Side.LONG then
          match last_confirmed_swing_low (c5w.map (·.l)) PIVOT_L with
          | some pidx =>
            if t1 ≤ (c5w.getD pidx default).t then
              let new_struct_stop := (c5w.map (·.l)).getD pidx 0 - struct_pad
              match sg.struct_stop with
              | some old => some (max old new_struct_stop)
              | none => some new_struct_stop
            else sg.struct_stop
          | none => sg.struct_stop
        else
          match last_confirmed_swing_high (c5w.map (·.h)) PIVOT_L with
          | some pidx =>
            if t1 ≤ (c5w.getD pidx default).t then
              let new_struct_stop := (c5w.map (·.h)).getD pidx 0 + struct_pad
              match sg.struct_stop with
              | some old => some (min old new_struct_stop)
              | none => some new_struct_stop
            else sg.struct_stop
          | none => sg.struct_stop
    let atr_stop :=
      if sg.side = some Side.LONG then
        let new_atr_stop := hh - atr_seatbelt_dist
        match sg.atr_stop with
        | some old => some (max old new_atr_stop)
        | none => some new_atr_stop
      else
        let new_atr_stop := ll + atr_seatbelt_dist
        match sg.atr_stop with
        | some old => some (min old new_atr_stop)
        | none => some new_atr_stop
    let sg := { sg with highest_high_since_tp1 := hh, lowest_low_since_tp1 := ll,
                        struct_stop := struct_stop, atr_stop := atr_stop }
    if sg.side = some Side.LONG then
      let runner_stop :=
        match sg.struct_stop with | some s => max be_stop s | none => be_stop
      let runner_stop :=
        match sg.atr_stop with | some s => max runner_stop s | none => runner_stop
      if closed.l ≤ runner_stop then
        (SigState.clear, some (TradeEvent.runnerStop runner_stop))
      else
        let ema_cross_exit := crossed_down sg.prev_efast5 sg.prev_eslow5 efast5 eslow5
        let time_exit :=
          match sg.tp1_t with
          | some t1 => decide ((60 : ℤ) * 60 ≤ closed.t - t1)
          | none => false
        if ema_cross_exit then (SigState.clear, some (TradeEvent.emaCross closed.c))
        else if time_exit then (SigState.clear, some (TradeEvent.timeStop closed.c))
        else (sg, none)
    else
      let runner_stop :=
        match sg.struct_stop with | some s => min be_stop s | none => be_stop
      let runner_stop :=
        match sg.atr_stop with | some s => min runner_stop s | none => runner_stop
      if runner_stop ≤ closed.h then
        (SigState.clear, some (TradeEvent.runnerStop runner_stop))
      else
        let ema_cross_exit := crossed_up sg.prev_efast5 sg.prev_eslow5 efast5 eslow5
        let time_exit :=
          match sg.tp1_t with
          | some t1 => decide ((60 : ℤ) * 60 ≤ closed.t - t1)
          | none => false
        if ema_cross_exit then (SigState.clear, some (TradeEvent.emaCross closed.c))
        else if time_exit then (SigState.clear, some (TradeEvent.timeStop closed.c))
        else (sg, none)
  else (sg, none)

/-- "If bias/trend flips while waiting, drop setup" (src/signalbot.py lines
694-698). -/
def structInvalidate (st : StructureState)
    (biasLong biasShort emaTrendLong emaTrendShort : Bool) : StructureState :=
  if st.waitingRetest then
    if st.direction = some Side.LONG ∧ (¬ biasLong ∨ ¬ emaTrendLong) then
      StructureState.reset
    else if st.direction = some Side.SHORT ∧ (¬ biasShort ∨ ¬ emaTrendShort) then
      StructureState.reset
    else st
  else st

/-- "Arm BOS -> WAIT_RETEST" (src/signalbot.py lines 700-717): `reset()`
followed by field assignments. -/
def structArm (st : StructureState)
    (biasLong biasShort emaTrendLong emaTrendShort bosUp bosDown : Bool)
    (lastSwingHigh lastSwingLow : ℚ) : StructureState :=
  if bosUp ∧ biasLong ∧ emaTrendLong then
    { StructureState.reset with
        direction := some Side.LONG, bosLevel := some lastSwingHigh,
        waitingRetest := true, retestRef := none, accCount := 0,
        bosSwingLow := some lastSwingLow }
  else if bosDown ∧ biasShort ∧ emaTrendShort then
    { StructureState.reset with
        direction := some Side.SHORT, bosLevel := some lastSwingLow,
        waitingRetest := true, retestRef := none, accCount := 0,
        bosSwingHigh := some lastSwingHigh }
  else st

/-- "Retest" (src/signalbot.py lines 720-728). -/
def structRetest (st : StructureState) (retest_buf : ℚ) (closed : Candle) :
    StructureState :=
  match st.bosLevel with
  | some bl =>
    if st.waitingRetest then
      if st.direction = some Side.LONG then
        if closed.l ≤ bl + retest_buf then
          { st with retestRef := some bl, accCount := 0 }
        else st
      else
        if bl - retest_buf ≤ closed.h then
          { st with retestRef := some bl, accCount := 0 }
        else st
    else st
  | none => st

/-- "Acceptance closes" (src/signalbot.py lines 731-735). -/
def structAccept (st : StructureState) (closed : Candle) : StructureState :=
  match st.retestRef with
  | some ref =>
    if st.waitingRetest then
      if st.direction = some Side.LONG then
        { st with accCount := if ref < closed.c then st.accCount + 1 else 0 }
      else
        { st with accCount := if closed.c < ref then st.accCount + 1 else 0 }
    else st
  | none => st

/-- Section "2) Structure state machine" of `main` in src/signalbot.py
(lines 692-737), run only when no signal is active: bias/trend invalidation
of an armed setup, arming on BOS, retest detection, acceptance counting.
Returns the updated structure state together with the `accepted` flag of
line 737.  The booleans are the locals `biasLong`, `biasShort`,
`emaTrendLong`, `emaTrendShort`, `bosUp`, `bosDown` computed earlier in the
loop body. -/
def structEval (st : StructureState)
    (biasLong biasShort emaTrendLong emaTrendShort bosUp bosDown : Bool)
    (lastSwingHigh lastSwingLow retest_buf : ℚ) (closed : Candle) :
    StructureState × Bool :=
  let st := structInvalidate st biasLong biasShort emaTrendLong emaTrendShort
  let st := structArm st biasLong biasShort emaTrendLong emaTrendShort
    bosUp bosDown lastSwingHigh lastSwingLow
  let st := structRetest st retest_buf closed
  let st := structAccept st closed
  let accepted :=
    st.waitingRetest && st.retestRef.isSome && decide (ACCEPT_BARS ≤ st.accCount)
  (st, accepted)

/-- Section "3) Entry (signal-only)" of `main` in src/signalbot.py
(lines 875-974): on `accepted`, build the stop from the BOS-time swing
anchor minus/plus `ATR * 0.10`, discard on non-positive risk, otherwise
activate the signal trade; the structure state is reset in every branch. -/
def entryEval (st : StructureState) (accepted : Bool)
    (biasLong biasShort emaTrendLong emaTrendShort : Bool)
    (a : ℚ) (closed : Candle) (sg : SigState) : StructureState × SigState :=
  if accepted then
    let entry := closed.c
    if st.direction = some Side.LONG ∧ biasLong ∧ emaTrendLong then
      match st.bosSwingLow with
      | none => (StructureState.reset, sg)
      | some anchor =>
        let stop := anchor - a * (10 / 100)
        let R := entry - stop
        if R ≤ 0 then (StructureState.reset, sg)
        else
          (StructureState.reset,
           { sg with active := true, phase := some Phase.PRE_TP1,
                     side := some Side.LONG, entry_t := some closed.t,
                     entry := entry, stop_init := stop, R := R,
                     tp1 := entry + TP1_R_MULT * R })
    else if st.direction = some Side.SHORT ∧ biasShort ∧ emaTrendShort then
      match st.bosSwingHigh with
      | none => (StructureState.reset, sg)
      | some anchor =>
        let stop := anchor + a * (10 / 100)
        let R := stop - entry
        if R ≤ 0 then (StructureState.reset, sg)
        else
          (StructureState.reset,
           { sg with active := true, phase := some Phase.PRE_TP1,
                     side := some Side.SHORT, entry_t := some closed.t,
                     entry := entry, stop_init := stop, R := R,
                     tp1 := entry - TP1_R_MULT * R })
    else (StructureState.reset, sg)
  else (st, sg)

/-- Input of one closed-candle evaluation of the src/signalbot.py loop body:
the newly closed 5m candle, the aligned 5m window `c5w = c5_full[-300:]`, and
the four EMA values computed from the 5m and 1h close histories.  (The
upstream warm-up gates - history length, EMA `None` checks and the
once-per-bucket deduplication - happen before this point in the source and
leave all state unchanged.) -/
structure StepInput where
  closed : Candle
  c5w : List Candle
  efast5 : ℚ
  eslow5 : ℚ
  efast1 : ℚ
  eslow1 : ℚ
deriving Repr

/-- The indicator computations of the loop body (ATR at line 455, confirmed
pivots at lines 464-467); `none` when any of the source's `continue` gates
fires. -/
def gateOf (inp : StepInput) : Option (ℚ × ℕ × ℕ) :=
  match atr_from_candles inp.c5w ATR_LEN,
        last_confirmed_swing_high (inp.c5w.map (·.h)) PIVOT_L,
        last_confirmed_swing_low (inp.c5w.map (·.l)) PIVOT_L with
  | some a, some idx_hi, some idx_lo => some (a, idx_hi, idx_lo)
  | _, _, _ => none

/-- One full closed-candle evaluation of `main` in src/signalbot.py:
indicator gates, management of an active signal, the prev-EMA update of
lines 686-687, and - only if no signal is active afterwards - the structure
state machine followed by the entry logic. -/
def fullStep (st : StructureState) (sg : SigState) (inp : StepInput) :
    StructureState × SigState :=
  match gateOf inp with
  | none => (st, sg)
  | some (a, idx_hi, idx_lo) =>
    let biasLong := decide (inp.eslow1 < inp.efast1)
    let biasShort := decide (inp.efast1 < inp.eslow1)
    let emaTrendLong := decide (inp.eslow5 < inp.efast5)
    let emaTrendShort := decide (inp.efast5 < inp.eslow5)
    let retest_buf := a * RETEST_BUF_ATR
    let lastSwingHigh := (inp.c5w.map (·.h)).getD idx_hi 0
    let lastSwingLow := (inp.c5w.map (·.l)).getD idx_lo 0
    let prev_close := (inp.c5w.getD (inp.c5w.length - 2) default).c
    let bosUp := decide (prev_close ≤ lastSwingHigh) && decide (lastSwingHigh < inp.closed.c)
    let bosDown := decide (lastSwingLow ≤ prev_close) && decide (inp.closed.c < lastSwingLow)
    let sg1 :=
      if sg.active then (manageSig sg inp.closed inp.c5w a inp.efast5 inp.eslow5).1
      else sg
    let sg2 := { sg1 with prev_efast5 := some inp.efast5, prev_eslow5 := some inp.eslow5 }
    if sg2.active then (st, sg2)
    else
      let (st1, accepted) :=
        structEval st biasLong biasShort emaTrendLong emaTrendShort bosUp bosDown
          lastSwingHigh lastSwingLow retest_buf inp.closed
      entryEval st1 accepted biasLong biasShort emaTrendLong emaTrendShort a inp.closed sg2

/-- Iterated closed-candle evaluations from the initial program state
(`structure = StructureState()`, `sig = SignalTradeState()`). -/
def runSteps (l : List StepInput) : StructureState × SigState :=
  l.foldl (fun s inp => fullStep s.1 s.2 inp) (StructureState.reset, SigState.clear)

end SignalBot

namespace Risk

/-- `size_from_risk` from src/risk.py. -/
def size_from_risk (risk_usdt entry stop : ℚ) : ℚ :=
  let dist := entry - stop
  if risk_usdt ≤ 0 ∨ dist ≤ 0 then 0 else risk_usdt / dist

/-- `RiskState` from src/risk.py.  The UTC day key "YYYY-MM-DD" is modelled
as a day number; the source reads it from the wall clock, here it is passed
in explicitly. -/
structure RiskState where
  daily_pnl : ℚ
  consec_losses : ℕ
  cooldown_until : ℚ
  day_key : Option ℕ
deriving DecidableEq, Repr

/-- `RiskState()` with its dataclass defaults. -/
def RiskState.init : RiskState := ⟨0, 0, 0, none⟩

/-- `RiskState.reset_if_new_day`, with the current UTC day passed in. -/
def RiskState.reset_if_new_day (s : RiskState) (day : ℕ) : RiskState :=
  match s.day_key with
  | none => { s with day_key := some day }
  | some k =>
    if day ≠ k then
      { s with day_key := some day, daily_pnl := 0, consec_losses := 0 }
    else s

/-- `RiskState.in_cooldown`, with clock values passed in. -/
def RiskState.in_cooldown (s : RiskState) (now_ts : ℚ) (day : ℕ) : Bool :=
  let s := s.reset_if_new_day day
  decide (now_ts < s.cooldown_until)

/-- `RiskState.register_trade_result` from src/risk.py: day rollover, add the
net PnL, track consecutive losses, trigger the cooldown breaker. -/
def RiskState.register_trade_result (s : RiskState) (pnl : ℚ)
    (cooldown_seconds : ℕ) (max_consec_losses : ℕ) (now_ts : ℚ) (day : ℕ) :
    RiskState :=
  let s := s.reset_if_new_day day
  let s := { s with daily_pnl := s.daily_pnl + pnl }
  let s :=
    if pnl < 0 then { s with consec_losses := s.consec_losses + 1 }
    else { s with consec_losses := 0 }
  if max_consec_losses ≤ s.consec_losses then
    { s with cooldown_until := now_ts + (cooldown_seconds : ℚ) }
  else s

end Risk

namespace Bot

open SignalBot (Candle Side)

/-! ### src/bot.py constants (values from src/config.py) -/

def TAKER_FEE_PCT : ℚ := 4 / 10000
def ENTRY_SLIPPAGE_PCT : ℚ := 2 / 10000
def STOP_SLIPPAGE_PCT : ℚ := 5 / 10000
def TP_SLIPPAGE_PCT : ℚ := 1 / 10000
def BE_BUFFER_PCT : ℚ := 1 / 10000
def TP1_R_MULT : ℚ := 1
def TP2_R_MULT : ℚ := 2
def TP1_FRACTION : ℚ := 1 / 2
def STOP_BUFFER_PCT : ℚ := 5 / 10000
def RISK_USDT_PER_TRADE : ℚ := 5
def MAX_CONSEC_LOSSES : ℕ := 1
def COOLDOWN_SECONDS : ℕ := 3 * 60 * 60
def RETEST_BUF_ATR : ℚ := 15 / 100
def ACCEPT_BARS : ℕ := 2

/-- `PaperPosition` from src/paper.py (`open` is a Lean keyword, hence
`is_open`). -/
structure PaperPosition where
  side : Side
  entry : ℚ
  stop : ℚ
  size : ℚ
  initial_size : ℚ
  tp1_price : ℚ
  tp1_size : ℚ
  tp2_price : Option ℚ
  tp1_taken : Bool
  is_open : Bool
deriving DecidableEq, Repr

/-- `StructureState` from src/bot.py (separate LONG/SHORT tracks). -/
structure StructureState where
  bosLevelLong : Option ℚ
  bosLevelShort : Option ℚ
  waitingRetestLong : Bool
  waitingRetestShort : Bool
  retestRefLong : Option ℚ
  retestRefShort : Option ℚ
  accCountLong : ℕ
  accCountShort : ℕ
deriving DecidableEq, Repr

/-- `StructureState.__init__` from src/bot.py. -/
def StructureState.init : StructureState :=
  ⟨none, none, false, false, none, none, 0, 0⟩

/-- Structured record of the position-management log/notify events of
src/bot.py ("tp1_taken", "tp2_taken", "stop_hit") with fill price and net
PnL of the leg. -/
inductive BEvent where
  | tp1Taken (fill pnl new_stop : ℚ)
  | tp2Taken (fill pnl : ℚ)
  | stopHit (exitPrice pnl : ℚ)
deriving DecidableEq, Repr

/-- True exactly for a "tp1_taken" event. -/
def BEvent.isTp1 : BEvent → Bool
  | BEvent.tp1Taken _ _ _ => true
  | _ => false

/-- The "POSITION MANAGEMENT" block of `main` in src/bot.py (lines 202-280),
executed per newly closed candle while `position is not None`.  Checks, in
source order: TP1 (partial close, breakeven-stop promotion, PnL added to
`risk.daily_pnl`), then TP2 (full close of the remainder, PnL added and
`register_trade_result` called), then the stop (full close at the slipped
stop, PnL added and `register_trade_result` called).  Returns the remaining
position (`none` after a full close), the updated risk state and the emitted
events; clock values for the risk module are passed in. -/
def manage (pos : PaperPosition) (closed : Candle) (risk : Risk.RiskState)
    (now_ts : ℚ) (day : ℕ) :
    Option PaperPosition × Risk.RiskState × List BEvent :=
  -- TP1 check
  let (pos, risk, evs) :=
    if ¬ pos.tp1_taken then
      let tp1_hit :=
        if pos.side = Side.LONG then pos.tp1_price ≤ closed.h
        else closed.l ≤ pos.tp1_price
      if tp1_hit then
        let tp_fill :=
          if pos.side = Side.LONG then pos.tp1_price * (1 - TP_SLIPPAGE_PCT)
          else pos.tp1_price * (1 + TP_SLIPPAGE_PCT)
        let gross_tp :=
          if pos.side = Side.LONG then (tp_fill - pos.entry) * pos.tp1_size
          else (pos.entry - tp_fill) * pos.tp1_size
        let new_stop :=
          if pos.side = Side.LONG then pos.entry * (1 + BE_BUFFER_PCT)
          else pos.entry * (1 - BE_BUFFER_PCT)
        let tp_fees := tp_fill * pos.tp1_size * TAKER_FEE_PCT
        let tp_pnl := gross_tp - tp_fees
        let pos := { pos with size := pos.size - pos.tp1_size, tp1_taken := true }
        let pos :=
          if (pos.side = Side.LONG ∧ pos.stop < new_stop) ∨
             (pos.side = Side.SHORT ∧ new_stop < pos.stop) then
            { pos with stop := new_stop }
          else pos
        let risk := { risk with daily_pnl := risk.daily_pnl + tp_pnl }
        (pos, risk, [BEvent.tp1Taken tp_fill tp_pnl pos.stop])
      else (pos, risk, [])
    else (pos, risk, ([] : List BEvent))
  -- TP2 check
  let tp2_res :=
    match pos.tp2_price with
    | some tp2 =>
      let tp2_hit :=
        if pos.side = Side.LONG then tp2 ≤ closed.h else closed.l ≤ tp2
      if tp2_hit then
        let tp_fill :=
          if pos.side = Side.LONG then tp2 * (1 - TP_SLIPPAGE_PCT)
          else tp2 * (1 + TP_SLIPPAGE_PCT)
        let gross_tp :=
          if pos.side = Side.LONG then (tp_fill - pos.entry) * pos.size
          else (pos.entry - tp_fill) * pos.size
        let tp_fees := tp_fill * pos.size * TAKER_FEE_PCT
        let tp_pnl := gross_tp - tp_fees
        let risk := { risk with daily_pnl := risk.daily_pnl + tp_pnl }
        let risk := risk.register_trade_result tp_pnl COOLDOWN_SECONDS
          MAX_CONSEC_LOSSES now_ts day
        some (risk, BEvent.tp2Taken tp_fill tp_pnl)
      else none
    | none => none
  match tp2_res with
  | some (risk, ev) => (none, risk, evs ++ [ev])   -- `continue`: stop not checked
  | none =>
    -- STOP check
    let stop_hit :=
      if pos.side = Side.LONG then closed.l ≤ pos.stop else pos.stop ≤ closed.h
    if stop_hit then
      let exit_price :=
        if pos.side = Side.LONG then pos.stop * (1 - STOP_SLIPPAGE_PCT)
        else pos.stop * (1 + STOP_SLIPPAGE_PCT)
      let gross_pnl :=
        if pos.side = Side.LONG then (exit_price - pos.entry) * pos.size
        else (pos.entry - exit_price) * pos.size
      let fees := (pos.entry * pos.size + exit_price * pos.size) * TAKER_FEE_PCT
      let pnl := gross_pnl - fees
      let risk := { risk with daily_pnl := risk.daily_pnl + pnl }
      let risk := risk.register_trade_result pnl COOLDOWN_SECONDS
        MAX_CONSEC_LOSSES now_ts day
      (none, risk, evs ++ [BEvent.stopHit exit_price pnl])
    else (some pos, risk, evs)

/-- Input of one flat-only entry evaluation of src/bot.py (lines 287-445):
the closed candle and the locals computed from the candle histories - EMA
values, the confirmed swing levels `highs5[idx_hi]` / `lows5[idx_lo]`, the
previous close `c5[-2]["c"]` and the ATR value.  (The `continue` gates for
missing history/EMAs/pivots/ATR leave all state unchanged and precede this
logic in the source.) -/
structure EntryInput where
  closed : Candle
  efast5 : ℚ
  eslow5 : ℚ
  efast1 : ℚ
  eslow1 : ℚ
  lastSwingHigh : ℚ
  lastSwingLow : ℚ
  prev_close : ℚ
  a : ℚ
deriving Repr

def EntryInput.biasLong (inp : EntryInput) : Bool := decide (inp.eslow1 < inp.efast1)
def EntryInput.biasShort (inp : EntryInput) : Bool := decide (inp.efast1 < inp.eslow1)
def EntryInput.emaTrendLong (inp : EntryInput) : Bool := decide (inp.eslow5 < inp.efast5)
def EntryInput.emaTrendShort (inp : EntryInput) : Bool := decide (inp.efast5 < inp.eslow5)
def EntryInput.bosUp (inp : EntryInput) : Bool :=
  decide (inp.prev_close ≤ inp.lastSwingHigh) && decide (inp.lastSwingHigh < inp.closed.c)
def EntryInput.bosDown (inp : EntryInput) : Bool :=
  decide (inp.lastSwingLow ≤ inp.prev_close) && decide (inp.closed.c < inp.lastSwingLow)

/-- The structure-state updates of src/bot.py lines 328-359: arming on BOS,
retest detection and acceptance counting for the two directional tracks. -/
def structUpdate (st : StructureState) (inp : EntryInput) : StructureState :=
  let buf := inp.a * RETEST_BUF_ATR
  let st :=
    if inp.bosUp then
      { st with bosLevelLong := some inp.lastSwingHigh, waitingRetestLong := true,
                waitingRetestShort := false, bosLevelShort := none,
                retestRefShort := none, accCountShort := 0 }
    else st
  let st :=
    if inp.bosDown then
      { st with bosLevelShort := some inp.lastSwingLow, waitingRetestShort := true,
                waitingRetestLong := false, bosLevelLong := none,
                retestRefLong := none, accCountLong := 0 }
    else st
  let retestLong :=
    match st.bosLevelLong with
    | some bl => st.waitingRetestLong && decide (inp.closed.l ≤ bl + buf)
    | none => false
  let retestShort :=
    match st.bosLevelShort with
    | some bl => st.waitingRetestShort && decide (bl - buf ≤ inp.closed.h)
    | none => false
  let st :=
    if retestLong then
      { st with retestRefLong := st.bosLevelLong, accCountLong := 0 }
    else st
  let st :=
    if retestShort then
      { st with retestRefShort := st.bosLevelShort, accCountShort := 0 }
    else st
  let st :=
    match st.retestRefLong with
    | some ref =>
      if st.waitingRetestLong then
        { st with accCountLong := if ref < inp.closed.c then st.accCountLong + 1 else 0 }
      else st
    | none => st
  let st :=
    match st.retestRefShort with
    | some ref =>
      if st.waitingRetestShort then
        { st with accCountShort := if inp.closed.c < ref then st.accCountShort + 1 else 0 }
      else st
    | none => st
  st

/-- `acceptedLong` of src/bot.py line 361 over the updated structure state. -/
def acceptedLong (st : StructureState) : Bool :=
  st.waitingRetestLong && st.retestRefLong.isSome && decide (ACCEPT_BARS ≤ st.accCountLong)

/-- `acceptedShort` of src/bot.py line 362. -/
def acceptedShort (st : StructureState) : Bool :=
  st.waitingRetestShort && st.retestRefShort.isSome && decide (ACCEPT_BARS ≤ st.accCountShort)

/-- One flat-only entry evaluation of src/bot.py (lines 328-445): structure
updates, setup confirmation, stop construction from the swing level with the
percentage buffer, the non-positive-distance check, the `[MIN_STOP_PCT,
MAX_STOP_PCT]` stop-distance guardrail, risk-based sizing, and position
creation (which clears the corresponding structure track).  `MIN_STOP_PCT`
and `MAX_STOP_PCT` are parameters: src/bot.py imports them from src/config.py,
which defines the per-symbol values in `SYMBOL_PROFILES`. -/
def entryStep (st : StructureState) (inp : EntryInput)
    (min_stop_pct max_stop_pct : ℚ) : StructureState × Option PaperPosition :=
  let st := structUpdate st inp
  let longSetup := inp.biasLong && inp.emaTrendLong && acceptedLong st
  let shortSetup := inp.biasShort && inp.emaTrendShort && acceptedShort st
  if longSetup then
    let stop := inp.lastSwingLow * (1 - STOP_BUFFER_PCT)
    let entry := inp.closed.c
    let stop_dist := entry - stop
    if stop_dist ≤ 0 then (st, none)
    else
      let stop_pct := stop_dist / entry
      if ¬ (min_stop_pct ≤ stop_pct ∧ stop_pct ≤ max_stop_pct) then (st, none)
      else
        let size := Risk.size_from_risk RISK_USDT_PER_TRADE entry stop
        if size ≤ 0 then (st, none)
        else
          let filled_entry := entry * (1 + ENTRY_SLIPPAGE_PCT)
          let R := filled_entry - stop
          let tp1_price := filled_entry + TP1_R_MULT * R
          let tp2_price := filled_entry + TP2_R_MULT * R
          let tp1_size := size * TP1_FRACTION
          let pos : PaperPosition :=
            ⟨Side.LONG, filled_entry, stop, size, size, tp1_price, tp1_size,
             some tp2_price, false, true⟩
          ({ st with waitingRetestLong := false, retestRefLong := none,
                     accCountLong := 0 }, some pos)
  else if shortSetup then
    let stop := inp.lastSwingHigh * (1 + STOP_BUFFER_PCT)
    let entry := inp.closed.c
    let stop_dist := stop - entry
    if stop_dist ≤ 0 then (st, none)
    else
      let stop_pct := stop_dist / entry
      if ¬ (min_stop_pct ≤ stop_pct ∧ stop_pct ≤ max_stop_pct) then (st, none)
      else
        let size := Risk.size_from_risk RISK_USDT_PER_TRADE stop entry
        if size ≤ 0 then (st, none)
        else
          let filled_entry := entry * (1 - ENTRY_SLIPPAGE_PCT)
          let R := stop - filled_entry
          let tp1_price := filled_entry - TP1_R_MULT * R
          let tp2_price := filled_entry - TP2_R_MULT * R
          let tp1_size := size * TP1_FRACTION
          let pos : PaperPosition :=
            ⟨Side.SHORT, filled_entry, stop, size, size, tp1_price, tp1_size,
             some tp2_price, false, true⟩
          ({ st with waitingRetestShort := false, retestRefShort := none,
                     accCountShort := 0 }, some pos)
  else (st, none)

end Bot

namespace SignalBot

/-- The spec's structure-state invariant: no armed retest reference or
acceptance credit outside of the WAITING_RETEST state. -/
def StructInv (st : StructureState) : Prop :=
  st.waitingRetest = false → st.retestRef = none ∧ st.accCount = 0

/-- Well-formedness of a `CandleBuilder`: closed-candle history has strictly
increasing bucket times, all older than the in-progress candle's bucket. -/
def goodBuilder (b : CandleBuilder) : Prop :=
  ((b.candles.map (·.t)).Pairwise (· < ·)) ∧
  (∀ cur, b.current = some cur → ∀ x ∈ b.candles, x.t < cur.t) ∧
  (b.current = none → b.candles = [])

/-- Index `i` is a confirmed swing low of `vals` for lookback `L`: it has `L`
neighbours on each side and its value is strictly below all of them. -/
def IsConfirmedSwingLow (vals : List ℚ) (L i : ℕ) : Prop :=
  L ≤ i ∧ i + L < vals.length ∧
  ∀ j, (i - L ≤ j ∧ j < i) ∨ (i < j ∧ j ≤ i + L) →
    vals.getD i 0 < vals.getD j 0

/-- Index `i` is a confirmed swing high of `vals` for lookback `L`. -/
def IsConfirmedSwingHigh (vals : List ℚ) (L i : ℕ) : Prop :=
  L ≤ i ∧ i + L < vals.length ∧
  ∀ j, (i - L ≤ j ∧ j < i) ∨ (i < j ∧ j ≤ i + L) →
    vals.getD j 0 < vals.getD i 0

/-- A 15-candle execution window used to instantiate theorems on concrete
inputs: flat candles except a spike at index 2, so ATR is defined (47/7) and
index 2 is both the confirmed swing high and the confirmed swing low. -/
def witCandles : List Candle :=
  [⟨0, 7, 10, 5, 7⟩, ⟨300, 7, 10, 5, 7⟩, ⟨600, 7, 30, 1, 7⟩, ⟨900, 7, 10, 5, 7⟩,
   ⟨1200, 7, 10, 5, 7⟩, ⟨1500, 7, 10, 5, 7⟩, ⟨1800, 7, 10, 5, 7⟩,
   ⟨2100, 7, 10, 5, 7⟩, ⟨2400, 7, 10, 5, 7⟩, ⟨2700, 7, 10, 5, 7⟩,
   ⟨3000, 7, 10, 5, 7⟩, ⟨3300, 7, 10, 5, 7⟩, ⟨3600, 7, 10, 5, 7⟩,
   ⟨3900, 7, 10, 5, 7⟩, ⟨4200, 7, 10, 5, 7⟩]

/-- An open LONG trade in the PRE_TP1 phase (entry 100, stop 95, TP1 105). -/
def witSig : SigState :=
  ⟨true, some Phase.PRE_TP1, some Side.LONG, some 0, 100, 95, 5, 105,
   false, none, 0, 0, none, none, none, none⟩

/-- A closed candle touching neither the stop nor TP1 of `witSig`. -/
def witClosed : Candle := ⟨3000, 99, 100, 98, 99⟩

/-- Step input pairing `witClosed` with the `witCandles` window and EMAs in a
LONG-friendly configuration. -/
def witInput : StepInput := ⟨witClosed, witCandles, 2, 1, 2, 1⟩

/-- An open LONG trade in the RUNNER phase with both trailing stops set. -/
def witRunner : SigState :=
  ⟨true, some Phase.RUNNER, some Side.LONG, some 0, 100, 95, 5, 105,
   true, some 0, 106, 199 / 2, some 99, some 98, none, none⟩

/-- A fresh builder fed with a whole tick sequence. -/
def processTicks (tf : ℕ) (ticks : List (ℚ × ℚ)) : CandleBuilder :=
  (CandleBuilder.init tf).feed ticks

end SignalBot

section ClaimTheorems

open SignalBot

/-- Claim C9: when the observed UTC calendar day changes, the day rollover
zeroes `daily_pnl` and `consec_losses`, leaves `cooldown_until` untouched,
updates only the day key, and is idempotent for the new day (so the reset
happens exactly once per day change). -/
theorem c9_day_rollover (s : Risk.RiskState) (day k : ℕ)
    (hk : s.day_key = some k) (hne : day ≠ k) :
    (s.reset_if_new_day day).daily_pnl = 0 ∧
    (s.reset_if_new_day day).consec_losses = 0 ∧
    (s.reset_if_new_day day).cooldown_until = s.cooldown_until ∧
    (s.reset_if_new_day day).day_key = some day ∧
    (s.reset_if_new_day day).reset_if_new_day day = s.reset_if_new_day day := by
  simp [Risk.RiskState.reset_if_new_day, hk, hne]

/-- Claim C9 witness: the spec's own example, `dailyRealizedPnl = -50`,
`consecutiveLossCount = 2`, `cooldownUntil = 12345`, advancing from day 7
to day 8. -/
theorem c9_day_rollover_witness :
    ((Risk.RiskState.mk (-50) 2 12345 (some 7)).reset_if_new_day 8).daily_pnl = 0 ∧
    ((Risk.RiskState.mk (-50) 2 12345 (some 7)).reset_if_new_day 8).consec_losses = 0 ∧
    ((Risk.RiskState.mk (-50) 2 12345 (some 7)).reset_if_new_day 8).cooldown_until =
      (Risk.RiskState.mk (-50) 2 12345 (some 7)).cooldown_until ∧
    ((Risk.RiskState.mk (-50) 2 12345 (some 7)).reset_if_new_day 8).day_key = some 8 ∧
    (((Risk.RiskState.mk (-50) 2 12345 (some 7)).reset_if_new_day 8).reset_if_new_day 8) =
      ((Risk.RiskState.mk (-50) 2 12345 (some 7)).reset_if_new_day 8) :=
  c9_day_rollover ⟨-50, 2, 12345, some 7⟩ 8 7 rfl (by decide)

/-- Claim C2 is violated by the code: on the final exit leg (here a stop-out
of a LONG position with entry 100, stop 95, size 1, TP1 already taken, hit by
a candle with low 94), src/bot.py adds the leg's net PnL `-5.125481` to
`risk.daily_pnl` directly AND `register_trade_result` adds it a second time,
so the daily realized PnL moves by exactly twice the trade's netted PnL. -/
theorem c2_final_leg_pnl_added_twice :
    Bot.manage ⟨Side.LONG, 100, 95, 1, 1, 105, 0, none, true, true⟩
        ⟨1000, 95, 96, 94, 189 / 2⟩ ⟨0, 0, 0, some 0⟩ 0 0 =
      (none, ⟨2 * (-5125481 / 1000000), 1, 10800, some 0⟩,
       [Bot.BEvent.stopHit (37981 / 400) (-5125481 / 1000000)]) ∧
    (2 * (-5125481 / 1000000) : ℚ) ≠ -5125481 / 1000000 := by
  constructor
  · norm_num [Bot.manage, Risk.RiskState.register_trade_result,
      Risk.RiskState.reset_if_new_day, Bot.TAKER_FEE_PCT, Bot.STOP_SLIPPAGE_PCT,
      Bot.TP_SLIPPAGE_PCT, Bot.BE_BUFFER_PCT, Bot.COOLDOWN_SECONDS,
      Bot.MAX_CONSEC_LOSSES]
  · norm_num

/-- Claim C1 (amended): in src/signalbot.py the stop check precedes the TP1
check in the PRE_TP1 phase, so a candle touching the initial stop closes the
whole trade at the stop price even when it also touches TP1; in src/bot.py
the TP1 check runs first, so for an open position with TP1 untaken, any
candle touching TP1 triggers the TP1 partial before any stop handling. -/
theorem c1_stop_vs_tp1_order :
    (∀ (sg : SigState) (closed : Candle) (c5w : List Candle) (a ef es : ℚ),
      sg.phase = some Phase.PRE_TP1 →
      ((sg.side = some Side.LONG → closed.l ≤ sg.stop_init →
          manageSig sg closed c5w a ef es =
            (SigState.clear, some (TradeEvent.stopPre sg.stop_init))) ∧
       (sg.side = some Side.SHORT → sg.stop_init ≤ closed.h →
          manageSig sg closed c5w a ef es =
            (SigState.clear, some (TradeEvent.stopPre sg.stop_init))))) ∧
    (∀ (pos : Bot.PaperPosition) (closed : Candle) (r : Risk.RiskState)
       (now_ts : ℚ) (day : ℕ),
      pos.tp1_taken = false →
      ((pos.side = Side.LONG → pos.tp1_price ≤ closed.h →
          Bot.BEvent.isTp1 (((Bot.manage pos closed r now_ts day).2.2).getD 0
            (Bot.BEvent.stopHit 0 0)) = true) ∧
       (pos.side = Side.SHORT → closed.l ≤ pos.tp1_price →
          Bot.BEvent.isTp1 (((Bot.manage pos closed r now_ts day).2.2).getD 0
            (Bot.BEvent.stopHit 0 0)) = true))) := by
  constructor
  · intro sg closed c5w a ef es hphase
    constructor
    · intro hside htouch
      simp [manageSig, hphase, hside, htouch]
    · intro hside htouch
      simp [manageSig, hphase, hside, htouch]
  · intro pos closed r now_ts day htaken
    constructor
    · intro hside htouch
      simp [Bot.manage, htaken, hside, htouch]
      split <;> simp [Bot.BEvent.isTp1] <;> split_ifs <;> simp [Bot.BEvent.isTp1]
    · intro hside htouch
      simp [Bot.manage, htaken, hside, htouch]
      split <;> simp [Bot.BEvent.isTp1] <;> split_ifs <;> simp [Bot.BEvent.isTp1]

/-- Claim C1 counterexample: in src/bot.py, a LONG position (entry 100,
initial stop 95, TP1 105, size 10, TP1 size 5, TP1 untaken) hit by a candle
with low 94 and high 106 - touching both the initial stop and TP1 - does NOT
close entirely at the stop price 95: the TP1 partial executes first
(promoting the stop to breakeven 100.01) and the remainder exits at the
slipped promoted stop 99.959995 ≠ 95, refuting the claim that the stop check
is evaluated first in both sources. -/
theorem c1_counterexample :
    ((94 : ℚ) ≤ 95 ∧ (105 : ℚ) ≤ 106) ∧
    Bot.manage ⟨Side.LONG, 100, 95, 10, 10, 105, 5, none, false, true⟩
        ⟨1000, 100, 106, 94, 100⟩ ⟨0, 0, 0, some 0⟩ 0 0 =
      (none, ⟨1176881551 / 50000000, 1, 10800, some 0⟩,
       [Bot.BEvent.tp1Taken (209979 / 2000) (24737521 / 1000000) (10001 / 100),
        Bot.BEvent.stopHit (19991999 / 200000) (-59994499 / 100000000)]) ∧
    (19991999 / 200000 : ℚ) ≠ 95 := by
  refine ⟨⟨by norm_num, by norm_num⟩, ?_, by norm_num⟩
  norm_num [Bot.manage, Risk.RiskState.register_trade_result,
    Risk.RiskState.reset_if_new_day, Bot.TAKER_FEE_PCT, Bot.STOP_SLIPPAGE_PCT,
    Bot.TP_SLIPPAGE_PCT, Bot.BE_BUFFER_PCT, Bot.COOLDOWN_SECONDS,
    Bot.MAX_CONSEC_LOSSES]

/-- Claim C1 witness: both halves of the order theorem instantiated - a
PRE_TP1 LONG signal with stop 95 stopped out by a candle with low 94 in the
src/signalbot.py manager, and a LONG paper position whose TP1 at 105 is
touched (high 106) producing a TP1 event first in the src/bot.py manager. -/
theorem c1_stop_vs_tp1_order_witness :
    manageSig ⟨true, some Phase.PRE_TP1, some Side.LONG, some 0, 100, 95, 5,
        105, false, none, 0, 0, none, none, none, none⟩
      ⟨300, 99, 106, 94, 95⟩ [] 1 1 1 =
      (SigState.clear, some (TradeEvent.stopPre 95)) ∧
    Bot.BEvent.isTp1 (((Bot.manage ⟨Side.LONG, 100, 95, 10, 10, 105, 5, none,
        false, true⟩ ⟨1000, 100, 106, 94, 100⟩ ⟨0, 0, 0, some 0⟩ 0 0).2.2).getD 0
      (Bot.BEvent.stopHit 0 0)) = true :=
  ⟨(c1_stop_vs_tp1_order.1 _ ⟨300, 99, 106, 94, 95⟩ [] 1 1 1 rfl).1 rfl
      (by norm_num),
   (c1_stop_vs_tp1_order.2 _ ⟨1000, 100, 106, 94, 100⟩ ⟨0, 0, 0, some 0⟩ 0 0
      rfl).1 rfl (by norm_num)⟩

/-- Claim C7 (amended): in src/bot.py, when a confirmed setup's stop distance
as a percentage of entry falls outside the `[MIN_STOP_PCT, MAX_STOP_PCT]`
band, the setup is discarded before any position is opened - but the
structure state is NOT reset to IDLE: the candle's structure updates are kept
and the directional track stays armed (`waitingRetest* = true`). -/
theorem c7_guardrail_discard :
    ∀ (st : Bot.StructureState) (inp : Bot.EntryInput) (minp maxp : ℚ),
      (inp.biasLong = true → inp.emaTrendLong = true →
        Bot.acceptedLong (Bot.structUpdate st inp) = true →
        ¬ (minp ≤ (inp.closed.c - inp.lastSwingLow * (1 - Bot.STOP_BUFFER_PCT)) / inp.closed.c ∧
           (inp.closed.c - inp.lastSwingLow * (1 - Bot.STOP_BUFFER_PCT)) / inp.closed.c ≤ maxp) →
        Bot.entryStep st inp minp maxp = (Bot.structUpdate st inp, none) ∧
        (Bot.structUpdate st inp).waitingRetestLong = true) ∧
      (inp.biasShort = true → inp.emaTrendShort = true →
        Bot.acceptedShort (Bot.structUpdate st inp) = true →
        ¬ (minp ≤ (inp.lastSwingHigh * (1 + Bot.STOP_BUFFER_PCT) - inp.closed.c) / inp.closed.c ∧
           (inp.lastSwingHigh * (1 + Bot.STOP_BUFFER_PCT) - inp.closed.c) / inp.closed.c ≤ maxp) →
        Bot.entryStep st inp minp maxp = (Bot.structUpdate st inp, none) ∧
        (Bot.structUpdate st inp).waitingRetestShort = true) := by
  intro st inp minp maxp
  constructor
  · intro h1 h2 h3 h4
    have hw : (Bot.structUpdate st inp).waitingRetestLong = true := by
      have h3' := h3
      simp [Bot.acceptedLong, Bool.and_eq_true] at h3'
      exact h3'.1.1
    refine ⟨?_, hw⟩
    simp only [Bot.entryStep, h1, h2, h3, Bool.and_self, Bool.true_and, if_true]
    split_ifs with hd <;> rfl
  · intro h1 h2 h3 h4
    have hw : (Bot.structUpdate st inp).waitingRetestShort = true := by
      have h3' := h3
      simp [Bot.acceptedShort, Bool.and_eq_true] at h3'
      exact h3'.1.1
    have h1' : inp.efast1 < inp.eslow1 := by
      simpa [Bot.EntryInput.biasShort] using h1
    have hbl : inp.biasLong = false := by
      simp only [Bot.EntryInput.biasLong, decide_eq_false_iff_not]
      exact h1'.asymm
    refine ⟨?_, hw⟩
    simp only [Bot.entryStep, h1, h2, h3, hbl, Bool.false_and, Bool.and_self,
      Bool.true_and, if_true, Bool.false_eq_true, if_false]
    split_ifs with hd <;> rfl

/-- Claim C7 counterexample: a concrete armed-LONG structure state whose
setup confirms on this candle (acceptance reaches 2) with stop distance
10.94% of entry, far outside the band [0.3%, 1.5%]: the setup is discarded
(no position) but the resulting structure state still has
`waitingRetestLong = true` and `accCountLong = 2` - it is not the IDLE
state, refuting "structure state resets to IDLE". -/
theorem c7_counterexample :
    Bot.entryStep ⟨some 100, none, true, false, some 100, none, 1, 0⟩
        ⟨⟨0, 101, 101, 201 / 2, 101⟩, 2, 1, 2, 1, 200, 90, 100, 1⟩
        (3 / 1000) (15 / 1000) =
      (⟨some 100, none, true, false, some 100, none, 2, 0⟩, none) ∧
    (⟨some 100, none, true, false, some 100, none, 2, 0⟩ :
        Bot.StructureState).waitingRetestLong = true ∧
    (⟨some 100, none, true, false, some 100, none, 2, 0⟩ :
        Bot.StructureState) ≠ Bot.StructureState.init := by
  refine ⟨?_, rfl, by simp [Bot.StructureState.init]⟩
  norm_num [Bot.entryStep, Bot.structUpdate, Bot.acceptedLong, Bot.acceptedShort,
    Bot.EntryInput.biasLong, Bot.EntryInput.biasShort, Bot.EntryInput.emaTrendLong,
    Bot.EntryInput.emaTrendShort, Bot.EntryInput.bosUp, Bot.EntryInput.bosDown,
    Bot.STOP_BUFFER_PCT, Bot.RETEST_BUF_ATR, Bot.ACCEPT_BARS, Risk.size_from_risk]

/-- Claim C7 witness: the guardrail-discard theorem applied to the concrete
armed-LONG state and candle of the counterexample. -/
theorem c7_guardrail_discard_witness :
    Bot.entryStep ⟨some 100, none, true, false, some 100, none, 1, 0⟩
        ⟨⟨0, 101, 101, 201 / 2, 101⟩, 2, 1, 2, 1, 200, 90, 100, 1⟩
        (3 / 1000) (15 / 1000) =
      (Bot.structUpdate ⟨some 100, none, true, false, some 100, none, 1, 0⟩
        ⟨⟨0, 101, 101, 201 / 2, 101⟩, 2, 1, 2, 1, 200, 90, 100, 1⟩, none) ∧
    (Bot.structUpdate ⟨some 100, none, true, false, some 100, none, 1, 0⟩
        ⟨⟨0, 101, 101, 201 / 2, 101⟩, 2, 1, 2, 1, 200, 90, 100, 1⟩).waitingRetestLong
      = true :=
  (c7_guardrail_discard ⟨some 100, none, true, false, some 100, none, 1, 0⟩
      ⟨⟨0, 101, 101, 201 / 2, 101⟩, 2, 1, 2, 1, 200, 90, 100, 1⟩
      (3 / 1000) (15 / 1000)).1
    (by norm_num [Bot.EntryInput.biasLong])
    (by norm_num [Bot.EntryInput.emaTrendLong])
    (by norm_num [Bot.structUpdate, Bot.acceptedLong, Bot.EntryInput.bosUp,
      Bot.EntryInput.bosDown, Bot.RETEST_BUF_ATR, Bot.ACCEPT_BARS])
    (by norm_num [Bot.STOP_BUFFER_PCT])

/-- Claim C3: while a signal trade is active and stays active through this
candle's management, the structure state machine is not evaluated (the
structure state is returned unchanged) and no TradeSetup is acted upon (the
signal state is exactly the managed state of the same trade, so no second
entry can be opened while one is open); when the indicator gates fire,
nothing changes at all. -/
theorem c3_structure_suspended_while_active :
    (∀ (st : StructureState) (sg : SigState) (inp : StepInput) (a : ℚ) (ih il : ℕ),
      sg.active = true →
      gateOf inp = some (a, ih, il) →
      (manageSig sg inp.closed inp.c5w a inp.efast5 inp.eslow5).1.active = true →
      fullStep st sg inp =
        (st, { (manageSig sg inp.closed inp.c5w a inp.efast5 inp.eslow5).1 with
               prev_efast5 := some inp.efast5, prev_eslow5 := some inp.eslow5 })) ∧
    (∀ (st : StructureState) (sg : SigState) (inp : StepInput),
      gateOf inp = none → fullStep st sg inp = (st, sg)) := by
  constructor
  · intro st sg inp a ih il hact hgate hkeep
    simp only [fullStep, hgate]
    simp [hact, hkeep]
  · intro st sg inp hgate
    simp only [fullStep, hgate]

/-- Claim C3 witness: the active RUNNER trade `witSig` stays active on
`witInput` (no exit condition fires), so the step leaves the structure state
untouched and only manages the trade. -/
theorem c3_structure_suspended_witness :
    fullStep StructureState.reset witSig witInput =
      (StructureState.reset,
       { (manageSig witSig witInput.closed witInput.c5w (47 / 7) witInput.efast5
            witInput.eslow5).1 with
         prev_efast5 := some witInput.efast5, prev_eslow5 := some witInput.eslow5 }) := by
  apply c3_structure_suspended_while_active.1 StructureState.reset witSig witInput
    (47 / 7) 2 2 rfl
  · have hhi : last_confirmed_swing_high (witCandles.map (·.h)) PIVOT_L = some 2 := by
      decide
    have hlo : last_confirmed_swing_low (witCandles.map (·.l)) PIVOT_L = some 2 := by
      decide
    have hatr : atr_from_candles witCandles ATR_LEN = some (47 / 7) := by
      have hr : List.range 14 = [0, 1, 2, 3, 4, 5, 6, 7, 8, 9, 10, 11, 12, 13] := by
        decide
      have hlen : witCandles.length = 15 := by decide
      have g0 : witCandles[0] = ⟨0, 7, 10, 5, 7⟩ := by decide
      have g1 : witCandles[1] = ⟨300, 7, 10, 5, 7⟩ := by decide
      have g2 : witCandles[2] = ⟨600, 7, 30, 1, 7⟩ := by decide
      have g3 : witCandles[3] = ⟨900, 7, 10, 5, 7⟩ := by decide
      have g4 : witCandles[4] = ⟨1200, 7, 10, 5, 7⟩ := by decide
      have g5 : witCandles[5] = ⟨1500, 7, 10, 5, 7⟩ := by decide
      have g6 : witCandles[6] = ⟨1800, 7, 10, 5, 7⟩ := by decide
      have g7 : witCandles[7] = ⟨2100, 7, 10, 5, 7⟩ := by decide
      have g8 : witCandles[8] = ⟨2400, 7, 10, 5, 7⟩ := by decide
      have g9 : witCandles[9] = ⟨2700, 7, 10, 5, 7⟩ := by decide
      have g10 : witCandles[10] = ⟨3000, 7, 10, 5, 7⟩ := by decide
      have g11 : witCandles[11] = ⟨3300, 7, 10, 5, 7⟩ := by decide
      have g12 : witCandles[12] = ⟨3600, 7, 10, 5, 7⟩ := by decide
      have g13 : witCandles[13] = ⟨3900, 7, 10, 5, 7⟩ := by decide
      have g14 : witCandles[14] = ⟨4200, 7, 10, 5, 7⟩ := by decide
      norm_num [atr_from_candles, hlen, hr, ATR_LEN, g0, g1, g2, g3, g4, g5,
        g6, g7, g8, g9, g10, g11, g12, g13, g14]
    simp only [gateOf, witInput, hatr, hhi, hlo]
  · decide

/-- Claim C4: with an armed retest reference, when neither the invalidation,
BOS-arming nor retest transition fires on this candle, the acceptance counter
becomes the previous count plus one on a confirming close (`close > ref` for
LONG, `close < ref` for SHORT) and exactly zero on any non-confirming close,
regardless of the prior count; the `accepted` flag holds exactly when the new
counter reaches the `ACCEPT_BARS` threshold. -/
theorem c4_acceptance_counter (st : StructureState)
    (bL bS tL tS bosU bosD : Bool) (lsh lsl buf : ℚ) (closed : Candle) (ref : ℚ)
    (hw : st.waitingRetest = true) (href : st.retestRef = some ref)
    (hbu : bosU = false) (hbd : bosD = false)
    (hnotouch : ∀ bl, st.bosLevel = some bl →
        (st.direction = some Side.LONG → ¬ closed.l ≤ bl + buf) ∧
        (st.direction = some Side.SHORT → ¬ bl - buf ≤ closed.h)) :
    (st.direction = some Side.LONG → bL = true → tL = true →
      (structEval st bL bS tL tS bosU bosD lsh lsl buf closed).1.accCount =
        (if ref < closed.c then st.accCount + 1 else 0) ∧
      (structEval st bL bS tL tS bosU bosD lsh lsl buf closed).2 =
        decide (ACCEPT_BARS ≤ if ref < closed.c then st.accCount + 1 else 0)) ∧
    (st.direction = some Side.SHORT → bS = true → tS = true →
      (structEval st bL bS tL tS bosU bosD lsh lsl buf closed).1.accCount =
        (if closed.c < ref then st.accCount + 1 else 0) ∧
      (structEval st bL bS tL tS bosU bosD lsh lsl buf closed).2 =
        decide (ACCEPT_BARS ≤ if closed.c < ref then st.accCount + 1 else 0)) := by
  constructor
  · intro hdir hbL htL
    have e1 : structInvalidate st bL bS tL tS = st := by
      simp [structInvalidate, hdir, hbL, htL]
    have e2 : structArm st bL bS tL tS bosU bosD lsh lsl = st := by
      simp [structArm, hbu, hbd]
    have e3 : structRetest st buf closed = st := by
      rcases hbl : st.bosLevel with _ | bl
      · simp [structRetest, hbl]
      · have hnt := (hnotouch bl hbl).1 hdir
        simp [structRetest, hbl, hdir, hnt]
    simp only [structEval, e1, e2, e3]
    simp [structAccept, href, hdir, hw]
  · intro hdir hbS htS
    have e1 : structInvalidate st bL bS tL tS = st := by
      simp [structInvalidate, hdir, hbS, htS]
    have e2 : structArm st bL bS tL tS bosU bosD lsh lsl = st := by
      simp [structArm, hbu, hbd]
    have e3 : structRetest st buf closed = st := by
      rcases hbl : st.bosLevel with _ | bl
      · simp [structRetest, hbl]
      · have hnt := (hnotouch bl hbl).2 hdir
        simp [structRetest, hbl, hdir, hnt]
    simp only [structEval, e1, e2, e3]
    simp [structAccept, href, hdir, hw]

/-- Claim C4 witness: an armed LONG state with a prior count of 41 and a
confirming close moves to exactly 42 (and is accepted); the same state with
prior count 41 and a non-confirming close would reset - here instantiated on
the confirming side. -/
theorem c4_acceptance_counter_witness :
    (structEval ⟨some Side.LONG, some 100, true, some 100, 41, none, none⟩
        true false true false false false 0 0 (1 / 2)
        ⟨0, 101, 101, 101, 101⟩).1.accCount = 42 ∧
    (structEval ⟨some Side.LONG, some 100, true, some 100, 41, none, none⟩
        true false true false false false 0 0 (1 / 2)
        ⟨0, 101, 101, 101, 101⟩).2 = true := by
  have h := (c4_acceptance_counter
      ⟨some Side.LONG, some 100, true, some 100, 41, none, none⟩
      true false true false false false 0 0 (1 / 2) ⟨0, 101, 101, 101, 101⟩ 100
      rfl rfl rfl rfl
      (by intro bl hbl
          constructor
          · intro _
            cases hbl
            norm_num
          · intro hdir
            cases hdir)).1 rfl rfl rfl
  rcases h with ⟨h1, h2⟩
  constructor
  · rw [h1]
    norm_num
  · rw [h2]
    norm_num [ACCEPT_BARS]

/-- The reset state satisfies the structure invariant. -/
theorem structInv_reset : StructInv StructureState.reset :=
  fun _ => ⟨rfl, rfl⟩

/-- The invalidation stage preserves the structure invariant. -/
theorem structInvalidate_inv (st : StructureState) (bL bS tL tS : Bool)
    (h : StructInv st) : StructInv (structInvalidate st bL bS tL tS) := by
  unfold structInvalidate
  split_ifs <;> first | exact structInv_reset | exact h

/-- The BOS-arming stage preserves the structure invariant. -/
theorem structArm_inv (st : StructureState)
    (bL bS tL tS bosU bosD : Bool) (lsh lsl : ℚ) (h : StructInv st) :
    StructInv (structArm st bL bS tL tS bosU bosD lsh lsl) := by
  unfold structArm
  split_ifs
  · intro hc
    cases hc
  · intro hc
    cases hc
  · exact h

/-- The retest stage preserves the structure invariant. -/
theorem structRetest_inv (st : StructureState) (buf : ℚ) (closed : Candle)
    (h : StructInv st) : StructInv (structRetest st buf closed) := by
  unfold structRetest
  rcases hbl : st.bosLevel with _ | bl
  · exact h
  · by_cases hw : st.waitingRetest = true
    · simp only [hw, if_true]
      split_ifs <;> first
        | (intro hc; simp at hc)
        | exact h
    · simp only [Bool.not_eq_true] at hw
      simp only [hw, Bool.false_eq_true, if_false]
      exact h

/-- The acceptance stage preserves the structure invariant. -/
theorem structAccept_inv (st : StructureState) (closed : Candle)
    (h : StructInv st) : StructInv (structAccept st closed) := by
  unfold structAccept
  rcases href : st.retestRef with _ | ref
  · exact h
  · by_cases hw : st.waitingRetest = true
    · simp only [hw, if_true]
      split_ifs <;> (intro hc; simp at hc)
    · simp only [Bool.not_eq_true] at hw
      simp only [hw, Bool.false_eq_true, if_false]
      exact h

/-- The structure-machine evaluation preserves the invariant. -/
theorem structEval_fst_inv (st : StructureState)
    (bL bS tL tS bosU bosD : Bool) (lsh lsl buf : ℚ) (closed : Candle)
    (h : StructInv st) :
    StructInv (structEval st bL bS tL tS bosU bosD lsh lsl buf closed).1 := by
  simp only [structEval]
  exact structAccept_inv _ _
    (structRetest_inv _ _ _
      (structArm_inv _ _ _ _ _ _ _ _ _
        (structInvalidate_inv _ _ _ _ _ h)))

/-- The entry stage preserves the invariant (it resets or keeps the state). -/
theorem entryEval_fst_inv (st : StructureState) (accepted : Bool)
    (bL bS tL tS : Bool) (a : ℚ) (closed : Candle) (sg : SigState)
    (h : StructInv st) :
    StructInv (entryEval st accepted bL bS tL tS a closed sg).1 := by
  unfold entryEval
  split_ifs with h1 h2 h3
  · rcases st.bosSwingLow with _ | anchor
    · exact structInv_reset
    · dsimp only
      split_ifs <;> exact structInv_reset
  · rcases st.bosSwingHigh with _ | anchor
    · exact structInv_reset
    · dsimp only
      split_ifs <;> exact structInv_reset
  · exact structInv_reset
  · exact h

/-- A full closed-candle step preserves the structure invariant. -/
theorem fullStep_fst_inv (st : StructureState) (sg : SigState)
    (inp : StepInput) (h : StructInv st) : StructInv (fullStep st sg inp).1 := by
  unfold fullStep
  rcases hg : gateOf inp with _ | ⟨a, ih, il⟩
  · exact h
  · dsimp only
    split_ifs
    all_goals first
      | exact h
      | exact entryEval_fst_inv _ _ _ _ _ _ _ _ _
          (structEval_fst_inv _ _ _ _ _ _ _ _ _ _ _ h)

/-- Claim C5: in every state of the structure state machine reachable from
the initial state by any sequence of closed-candle evaluations,
`waitingRetest = false` implies `retestRef = none` and `accCount = 0`. -/
theorem c5_reset_invariant (l : List StepInput) :
    (runSteps l).1.waitingRetest = false →
    (runSteps l).1.retestRef = none ∧ (runSteps l).1.accCount = 0 := by
  suffices h : ∀ (l : List StepInput) (st : StructureState) (sg : SigState),
      StructInv st →
      StructInv (l.foldl (fun s inp => fullStep s.1 s.2 inp) (st, sg)).1 by
    exact h l StructureState.reset SigState.clear structInv_reset
  intro l
  induction l with
  | nil => exact fun st sg h => h
  | cons x xs ihl =>
    intro st sg h
    exact ihl (fullStep st sg x).1 (fullStep st sg x).2 (fullStep_fst_inv st sg x h)

/-- Claim C5 witness: the invariant instantiated at the initial state (empty
evaluation sequence), whose `waitingRetest` is `false`. -/
theorem c5_reset_invariant_witness :
    (runSteps []).1.retestRef = none ∧ (runSteps []).1.accCount = 0 :=
  c5_reset_invariant [] rfl

/-- Claim C6: in the RUNNER phase, as long as the trade stays open, the
structure-trail stop and the ATR-seatbelt stop are each monotonically
tightened once set: non-decreasing over a candle for a LONG position and
non-increasing for a SHORT position. -/
theorem c6_runner_stops_monotone :
    ∀ (sg : SigState) (closed : Candle) (c5w : List Candle) (a ef es : ℚ),
      sg.phase = some Phase.RUNNER →
      (manageSig sg closed c5w a ef es).1.active = true →
      ((sg.side = some Side.LONG →
        (∀ v, sg.struct_stop = some v →
          ∃ w, (manageSig sg closed c5w a ef es).1.struct_stop = some w ∧ v ≤ w) ∧
        (∀ v, sg.atr_stop = some v →
          ∃ w, (manageSig sg closed c5w a ef es).1.atr_stop = some w ∧ v ≤ w)) ∧
       (sg.side = some Side.SHORT →
        (∀ v, sg.struct_stop = some v →
          ∃ w, (manageSig sg closed c5w a ef es).1.struct_stop = some w ∧ w ≤ v) ∧
        (∀ v, sg.atr_stop = some v →
          ∃ w, (manageSig sg closed c5w a ef es).1.atr_stop = some w ∧ w ≤ v))) := by
  intro sg closed c5w a ef es hphase hactive
  constructor
  · intro hside
    constructor
    · intro v hv
      simp only [manageSig, hphase, hside] at hactive ⊢
      simp only [hv] at hactive ⊢
      rcases htp : sg.tp1_t with _ | t1 <;>
        simp only [htp] at hactive ⊢ <;>
        [skip;
         rcases hpv : last_confirmed_swing_low (c5w.map (·.l)) PIVOT_L with _ | pidx <;>
           simp only [hpv] at hactive ⊢]
      all_goals
        simp only [reduceCtorEq, Option.some.injEq, if_true, if_false] at hactive ⊢
      all_goals split_ifs at hactive ⊢
      all_goals (try simp [SigState.clear] at hactive)
      all_goals
        first
          | exact ⟨v, rfl, le_refl v⟩
          | exact ⟨_, rfl, le_max_left v _⟩
    · intro v hv
      simp only [manageSig, hphase, hside] at hactive ⊢
      simp only [hv] at hactive ⊢
      simp only [reduceCtorEq, Option.some.injEq, if_true, if_false] at hactive ⊢
      split_ifs at hactive ⊢
      all_goals (try simp [SigState.clear] at hactive)
      all_goals
        first
          | exact ⟨v, rfl, le_refl v⟩
          | exact ⟨_, rfl, le_max_left v _⟩
  · intro hside
    constructor
    · intro v hv
      simp only [manageSig, hphase, hside] at hactive ⊢
      simp only [hv] at hactive ⊢
      rcases htp : sg.tp1_t with _ | t1 <;>
        simp only [htp] at hactive ⊢ <;>
        [skip;
         rcases hpv : last_confirmed_swing_high (c5w.map (·.h)) PIVOT_L with _ | pidx <;>
           simp only [hpv] at hactive ⊢]
      all_goals
        simp only [reduceCtorEq, Option.some.injEq, if_true, if_false] at hactive ⊢
      all_goals split_ifs at hactive ⊢
      all_goals (try simp [SigState.clear] at hactive)
      all_goals
        first
          | exact ⟨v, rfl, le_refl v⟩
          | exact ⟨_, rfl, min_le_left v _⟩
    · intro v hv
      simp only [manageSig, hphase, hside] at hactive ⊢
      simp only [hv] at hactive ⊢
      simp only [reduceCtorEq, Option.some.injEq, if_true, if_false] at hactive ⊢
      split_ifs at hactive ⊢
      all_goals (try simp [SigState.clear] at hactive)
      all_goals
        first
          | exact ⟨v, rfl, le_refl v⟩
          | exact ⟨_, rfl, min_le_left v _⟩

/-- Claim C6 witness: the RUNNER LONG trade `witRunner` (struct stop 99, ATR
stop 98) on a candle with low 105 and ATR 1 stays open, its structure stop
stays at 99 (no post-TP1 pivot in an empty window) and its ATR stop tightens
to 104.8; both are at least their previous values. -/
theorem c6_runner_stops_monotone_witness :
    (∃ w, (manageSig witRunner ⟨300, 105, 106, 105, 211 / 2⟩ [] 1 1 1).1.struct_stop =
        some w ∧ (99 : ℚ) ≤ w) ∧
    (∃ w, (manageSig witRunner ⟨300, 105, 106, 105, 211 / 2⟩ [] 1 1 1).1.atr_stop =
        some w ∧ (98 : ℚ) ≤ w) := by
  have hactive : (manageSig witRunner ⟨300, 105, 106, 105, 211 / 2⟩ [] 1 1 1).1.active = true := by
    norm_num [manageSig, witRunner, last_confirmed_swing_low, PIVOT_L,
      crossed_down, BE_BUF_ATR, ATR_SEATBELT_MULT, STRUCT_PAD_ATR]
    simp
  have h := (c6_runner_stops_monotone witRunner ⟨300, 105, 106, 105, 211 / 2⟩
      [] 1 1 1 rfl hactive).1 rfl
  exact ⟨h.1 99 rfl, h.2 98 rfl⟩

/-- Bucket assignment is monotone in the timestamp. -/
theorem bucket_mono {tf : ℕ} {ts ts' : ℚ} (h : ts ≤ ts') :
    bucket tf ts ≤ bucket tf ts' := by
  unfold bucket
  have h1 : ts / (tf : ℚ) ≤ ts' / (tf : ℚ) :=
    div_le_div_of_nonneg_right h (by positivity)
  exact mul_le_mul_of_nonneg_right (Int.floor_le_floor h1) (by positivity)

/-- `update` never changes the timeframe width. -/
theorem update_tf (b : CandleBuilder) (ts price : ℚ) :
    (b.update ts price).tf = b.tf := by
  unfold CandleBuilder.update
  cases b.current with
  | none => rfl
  | some cur =>
    dsimp only
    split_ifs <;> rfl

/-- After `update`, the in-progress candle sits in the tick's own bucket. -/
theorem update_current (b : CandleBuilder) (ts price : ℚ) :
    ∃ cur', (b.update ts price).current = some cur' ∧
      cur'.t = bucket b.tf ts := by
  unfold CandleBuilder.update
  cases b.current with
  | none => exact ⟨_, rfl, rfl⟩
  | some cur =>
    dsimp only
    split_ifs with hne
    · exact ⟨_, rfl, rfl⟩
    · exact ⟨_, rfl, not_not.mp hne⟩

/-- `update` preserves builder well-formedness when the tick's bucket is not
older than the in-progress candle's bucket. -/
theorem update_goodB {b : CandleBuilder} {ts price : ℚ} (hb : goodBuilder b)
    (hcur : ∀ cur, b.current = some cur → cur.t ≤ bucket b.tf ts) :
    goodBuilder (b.update ts price) := by
  obtain ⟨h1, h2, h3⟩ := hb
  unfold CandleBuilder.update
  cases hc : b.current with
  | none =>
    refine ⟨?_, ?_, ?_⟩
    · simpa [h3 hc] using List.Pairwise.nil
    · intro cur' hcur' x hx
      rw [h3 hc] at hx
      cases hx
    · intro h
      cases h
  | some cur =>
    dsimp only
    split_ifs with hne
    · refine ⟨?_, ?_, ?_⟩
      · simp only [List.map_append]
        rw [List.pairwise_append]
        refine ⟨h1, List.pairwise_singleton _ _, ?_⟩
        intro x hx y hy
        simp only [List.map_cons, List.map_nil, List.mem_singleton] at hy
        subst hy
        simp only [List.mem_map] at hx
        obtain ⟨cx, hcx, rfl⟩ := hx
        exact h2 cur hc cx hcx
      · intro cur' hcur' x hx
        simp only [Option.some.injEq] at hcur'
        subst hcur'
        have hlt : cur.t < bucket b.tf ts := lt_of_le_of_ne (hcur cur hc) hne
        simp only [List.mem_append, List.mem_singleton] at hx
        rcases hx with hx | hx
        · exact lt_trans (h2 cur hc x hx) hlt
        · subst hx
          exact hlt
      · intro h
        cases h
    · refine ⟨h1, ?_, ?_⟩
      · intro cur' hcur' x hx
        simp only [Option.some.injEq] at hcur'
        subst hcur'
        exact h2 cur hc x hx
      · intro h
        cases h

/-- Feeding a non-decreasing tick stream preserves well-formedness. -/
theorem feed_goodB : ∀ (ticks : List (ℚ × ℚ)) (b : CandleBuilder),
    ticks.Pairwise (fun x y => x.1 ≤ y.1) →
    goodBuilder b →
    (∀ cur, b.current = some cur → ∀ tk ∈ ticks, cur.t ≤ bucket b.tf tk.1) →
    goodBuilder (b.feed ticks) := by
  intro ticks
  induction ticks with
  | nil => exact fun b _ hb _ => hb
  | cons tk rest ih =>
    intro b hsort hb hfut
    have hb' : goodBuilder (b.update tk.1 tk.2) :=
      update_goodB hb (fun cur hc => hfut cur hc tk (List.mem_cons_self _ _))
    have hfeed : b.feed (tk :: rest) = (b.update tk.1 tk.2).feed rest := rfl
    rw [hfeed]
    apply ih _ (List.Pairwise.of_cons hsort) hb'
    intro cur' hcur' tk' htk'
    obtain ⟨cur'', hc'', ht''⟩ := update_current b tk.1 tk.2
    rw [hcur'] at hc''
    cases hc''
    rw [update_tf, ht'']
    exact bucket_mono ((List.pairwise_cons.mp hsort).1 tk' htk')

/-- Claim C10: a tick whose bucket differs from the in-progress candle's
bucket - including a strictly earlier bucket - finalizes and appends the
in-progress candle and opens a new candle at the tick's own bucket with
open=high=low=close=price (out-of-order ticks are neither dropped nor
clamped); the appended history's timestamps are strictly increasing whenever
the input timestamps are non-decreasing, and a concrete out-of-order stream
breaks the strict increase. -/
theorem c10_bucket_rollover :
    (∀ (b : CandleBuilder) (ts price : ℚ) (cur : Candle),
       b.current = some cur → bucket b.tf ts ≠ cur.t →
       b.update ts price =
         { b with candles := b.candles ++ [cur],
                  current := some ⟨bucket b.tf ts, price, price, price, price⟩ }) ∧
    (∀ (tf : ℕ) (ticks : List (ℚ × ℚ)),
       ticks.Pairwise (fun x y => x.1 ≤ y.1) →
       ((processTicks tf ticks).candles.map (·.t)).Pairwise (· < ·)) ∧
    ¬ (((processTicks 60 [(120, 1), (0, 2), (130, 3)]).candles.map
        (·.t)).Pairwise (· < ·)) := by
  refine ⟨?_, ?_, ?_⟩
  · intro b ts price cur hc hne
    unfold CandleBuilder.update
    rw [hc]
    dsimp only
    rw [if_pos (Ne.symm hne)]
  · intro tf ticks hsort
    have hinit : goodBuilder (CandleBuilder.init tf) := by
      refine ⟨by simp [CandleBuilder.init], ?_, fun _ => rfl⟩
      intro cur hc
      cases hc
    exact (feed_goodB ticks (CandleBuilder.init tf) hsort hinit
      (by intro cur hc; cases hc)).1
  · norm_num [processTicks, CandleBuilder.feed, CandleBuilder.update,
      CandleBuilder.init, bucket, List.pairwise_cons]

/-- Claim C10 witness: a builder holding a candle in bucket 120 (tf = 60)
receives a tick with timestamp 0 - a strictly earlier bucket: the candle is
appended and a fresh candle opens at bucket 0 with all prices equal to the
tick's price. -/
theorem c10_bucket_rollover_witness :
    CandleBuilder.update ⟨60, some ⟨120, 1, 1, 1, 1⟩, []⟩ 0 2 =
      { tf := 60, current := some ⟨0, 2, 2, 2, 2⟩,
        candles := [⟨120, 1, 1, 1, 1⟩] } := by
  have h := c10_bucket_rollover.1 ⟨60, some ⟨120, 1, 1, 1, 1⟩, []⟩ 0 2
    ⟨120, 1, 1, 1, 1⟩ rfl (by norm_num [bucket])
  rw [h]
  norm_num [bucket]

/-- The forward scan of `last_confirmed_swing_low` keeps the LAST qualifying
index: the fold equals `find?` on the reversed index list. -/
theorem foldl_pick_last (p : ℕ → Bool) :
    ∀ (l : List ℕ) (acc : Option ℕ),
      l.foldl (fun a i => if p i then some i else a) acc =
        (l.reverse.find? p).or acc := by
  intro l
  induction l with
  | nil => intro acc; simp
  | cons x xs ih =>
    intro acc
    rw [List.foldl_cons, ih, List.reverse_cons, List.find?_append]
    cases hf : xs.reverse.find? p with
    | some y => simp [Option.or]
    | none =>
      cases hp : p x <;> simp [List.find?, hp, Option.or]

/-- `find?` over a reversed block of consecutive indices returns `none`
exactly when no index in the block satisfies the predicate. -/
theorem revRange_find?_none (p : ℕ → Bool) (s : ℕ) :
    ∀ n, ((List.range' s n).reverse.find? p = none ↔
      ∀ j, s ≤ j → j < s + n → p j = false) := by
  intro n
  induction n with
  | zero =>
    constructor
    · intro _ j h1 h2
      exact absurd h2 (by omega)
    · intro _
      simp [List.range'_zero]
  | succ n ih =>
    rw [List.range'_1_concat, List.reverse_append, List.reverse_singleton,
      List.singleton_append]
    cases hp : p (s + n) with
    | true =>
      rw [List.find?_cons_of_pos _ hp]
      constructor
      · intro h
        cases h
      · intro h
        exact absurd (h (s + n) (by omega) (by omega)) (by simp [hp])
    | false =>
      rw [List.find?_cons_of_neg _ (by simp [hp])]
      rw [ih]
      constructor
      · intro h j h1 h2
        rcases Nat.lt_or_ge j (s + n) with hj | hj
        · exact h j h1 hj
        · have : j = s + n := by omega
          subst this
          exact hp
      · intro h j h1 h2
        exact h j h1 (by omega)

/-- `find?` over a reversed block of consecutive indices returns `some i`
exactly when `i` is the GREATEST index in the block satisfying the
predicate. -/
theorem revRange_find?_some (p : ℕ → Bool) (s : ℕ) :
    ∀ n i, ((List.range' s n).reverse.find? p = some i ↔
      (s ≤ i ∧ i < s + n ∧ p i = true ∧
        ∀ j, i < j → j < s + n → p j = false)) := by
  intro n
  induction n with
  | zero =>
    intro i
    constructor
    · intro h
      simp [List.range'_zero] at h
    · rintro ⟨h1, h2, _, _⟩
      exact absurd h2 (by omega)
  | succ n ih =>
    intro i
    rw [List.range'_1_concat, List.reverse_append, List.reverse_singleton,
      List.singleton_append]
    cases hp : p (s + n) with
    | true =>
      rw [List.find?_cons_of_pos _ hp]
      constructor
      · intro h
        injection h with h
        subst h
        exact ⟨by omega, by omega, hp, fun j hj1 hj2 => absurd hj2 (by omega)⟩
      · rintro ⟨h1, h2, h3, h4⟩
        have hie : i = s + n := by
          by_contra hne
          have hf := h4 (s + n) (by omega) (by omega)
          rw [hp] at hf
          cases hf
        rw [hie]
    | false =>
      rw [List.find?_cons_of_neg _ (by simp [hp]), ih i]
      constructor
      · rintro ⟨h1, h2, h3, h4⟩
        refine ⟨h1, by omega, h3, ?_⟩
        intro j hj1 hj2
        rcases Nat.lt_or_ge j (s + n) with hj | hj
        · exact h4 j hj1 hj
        · have hje : j = s + n := by omega
          rw [hje]
          exact hp
      · rintro ⟨h1, h2, h3, h4⟩
        have hi : i ≠ s + n := by
          intro he
          rw [he, hp] at h3
          cases h3
        exact ⟨h1, by omega, h3, fun j hj1 hj2 => h4 j hj1 (by omega)⟩

/-- Membership in the Python slice `vals[a:a+b]` (`drop`/`take`) is exactly
indexing in `[a, a+b)`. -/
theorem mem_slice_iff (vals : List ℚ) (a b : ℕ) (x : ℚ)
    (hab : a + b ≤ vals.length) :
    (x ∈ (vals.drop a).take b ↔
      ∃ j, a ≤ j ∧ j < a + b ∧ vals.getD j 0 = x) := by
  rw [List.mem_iff_getElem]
  have hlen : ((vals.drop a).take b).length = b := by
    simp only [List.length_take, List.length_drop]
    omega
  constructor
  · rintro ⟨m, hm, hx⟩
    rw [hlen] at hm
    refine ⟨a + m, by omega, by omega, ?_⟩
    rw [List.getD_eq_getElem vals 0 (by omega), ← hx]
    simp [List.getElem_take, List.getElem_drop]
  · rintro ⟨j, hj1, hj2, hx⟩
    refine ⟨j - a, by rw [hlen]; omega, ?_⟩
    rw [← hx, List.getD_eq_getElem vals 0 (by omega)]
    simp only [List.getElem_take, List.getElem_drop]
    congr 1
    omega

/-- The in-range swing-low qualification test means: strictly below all `L`
neighbours on each side. -/
theorem swingLowQual_iff (vals : List ℚ) (L i : ℕ) (h1 : L ≤ i)
    (h2 : i + L < vals.length) :
    (swingLowQual vals L i = true ↔
      ∀ j, (i - L ≤ j ∧ j < i) ∨ (i < j ∧ j ≤ i + L) →
        vals.getD i 0 < vals.getD j 0) := by
  simp only [swingLowQual, Bool.and_eq_true, List.all_eq_true]
  constructor
  · rintro ⟨hl, hr⟩ j hj
    rcases hj with ⟨hj1, hj2⟩ | ⟨hj1, hj2⟩
    · have hx : vals.getD j 0 ∈ (vals.drop (i - L)).take L := by
        rw [mem_slice_iff vals (i - L) L _ (by omega)]
        exact ⟨j, hj1, by omega, rfl⟩
      simpa using hl _ hx
    · have hx : vals.getD j 0 ∈ (vals.drop (i + 1)).take L := by
        rw [mem_slice_iff vals (i + 1) L _ (by omega)]
        exact ⟨j, by omega, by omega, rfl⟩
      simpa using hr _ hx
  · intro h
    constructor
    · intro x hx
      rw [mem_slice_iff vals (i - L) L x (by omega)] at hx
      obtain ⟨j, hj1, hj2, rfl⟩ := hx
      simpa using h j (Or.inl ⟨hj1, by omega⟩)
    · intro x hx
      rw [mem_slice_iff vals (i + 1) L x (by omega)] at hx
      obtain ⟨j, hj1, hj2, rfl⟩ := hx
      simpa using h j (Or.inr ⟨by omega, by omega⟩)

/-- The in-range swing-high qualification test means: strictly above all `L`
neighbours on each side. -/
theorem swingHighQual_iff (vals : List ℚ) (L i : ℕ) (h1 : L ≤ i)
    (h2 : i + L < vals.length) :
    (swingHighQual vals L i = true ↔
      ∀ j, (i - L ≤ j ∧ j < i) ∨ (i < j ∧ j ≤ i + L) →
        vals.getD j 0 < vals.getD i 0) := by
  simp only [swingHighQual, Bool.and_eq_true, List.all_eq_true]
  constructor
  · rintro ⟨hl, hr⟩ j hj
    rcases hj with ⟨hj1, hj2⟩ | ⟨hj1, hj2⟩
    · have hx : vals.getD j 0 ∈ (vals.drop (i - L)).take L := by
        rw [mem_slice_iff vals (i - L) L _ (by omega)]
        exact ⟨j, hj1, by omega, rfl⟩
      simpa using hl _ hx
    · have hx : vals.getD j 0 ∈ (vals.drop (i + 1)).take L := by
        rw [mem_slice_iff vals (i + 1) L _ (by omega)]
        exact ⟨j, by omega, by omega, rfl⟩
      simpa using hr _ hx
  · intro h
    constructor
    · intro x hx
      rw [mem_slice_iff vals (i - L) L x (by omega)] at hx
      obtain ⟨j, hj1, hj2, rfl⟩ := hx
      simpa using h j (Or.inl ⟨hj1, by omega⟩)
    · intro x hx
      rw [mem_slice_iff vals (i + 1) L x (by omega)] at hx
      obtain ⟨j, hj1, hj2, rfl⟩ := hx
      simpa using h j (Or.inr ⟨by omega, by omega⟩)

/-- `last_confirmed_swing_low` as a greatest-qualifying-index search. -/
theorem last_low_eq (vals : List ℚ) (L : ℕ) :
    last_confirmed_swing_low vals L =
      if vals.length < 2 * L + 1 then none
      else ((List.range' L (vals.length - 2 * L)).reverse).find?
        (fun i => swingLowQual vals L i) := by
  unfold last_confirmed_swing_low
  split_ifs with h
  · rfl
  · rw [foldl_pick_last]
    cases hf : ((List.range' L (vals.length - 2 * L)).reverse).find?
        (fun i => swingLowQual vals L i) <;> simp [Option.or, hf]

/-- Claim C8: both pivot scanners return the index of the MOST RECENT
confirmed pivot - `some i` exactly when `i` is the greatest index with `L`
neighbours on each side whose value is strictly beyond all of them, and
`none` exactly when no index qualifies (in particular whenever fewer than
`2L+1` values exist); this covers the forward-scanning swing-low
implementation and the backward-scanning swing-high implementation alike. -/
theorem c8_pivot_recency (vals : List ℚ) (L : ℕ) :
    (∀ i, last_confirmed_swing_low vals L = some i ↔
       IsConfirmedSwingLow vals L i ∧
       ∀ j, IsConfirmedSwingLow vals L j → j ≤ i) ∧
    (last_confirmed_swing_low vals L = none ↔
       ∀ i, ¬ IsConfirmedSwingLow vals L i) ∧
    (∀ i, last_confirmed_swing_high vals L = some i ↔
       IsConfirmedSwingHigh vals L i ∧
       ∀ j, IsConfirmedSwingHigh vals L j → j ≤ i) ∧
    (last_confirmed_swing_high vals L = none ↔
       ∀ i, ¬ IsConfirmedSwingHigh vals L i) := by
  by_cases hn : vals.length < 2 * L + 1
  · refine ⟨?_, ?_, ?_, ?_⟩
    · intro i
      rw [last_low_eq, if_pos hn]
      constructor
      · intro h
        cases h
      · rintro ⟨⟨hL, hlen, _⟩, _⟩
        exact absurd hlen (by omega)
    · rw [last_low_eq, if_pos hn]
      simp only [true_iff]
      rintro i ⟨hL, hlen, _⟩
      exact absurd hlen (by omega)
    · intro i
      unfold last_confirmed_swing_high
      rw [if_pos hn]
      constructor
      · intro h
        cases h
      · rintro ⟨⟨hL, hlen, _⟩, _⟩
        exact absurd hlen (by omega)
    · unfold last_confirmed_swing_high
      rw [if_pos hn]
      simp only [true_iff]
      rintro i ⟨hL, hlen, _⟩
      exact absurd hlen (by omega)
  · refine ⟨?_, ?_, ?_, ?_⟩
    · intro i
      rw [last_low_eq, if_neg hn, revRange_find?_some]
      constructor
      · rintro ⟨h1, h2, h3, h4⟩
        have hi2 : i + L < vals.length := by omega
        have hq := (swingLowQual_iff vals L i h1 hi2).mp h3
        refine ⟨⟨h1, hi2, hq⟩, ?_⟩
        rintro j ⟨hj1, hj2, hjq⟩
        by_contra hji
        push_neg at hji
        have hqj : swingLowQual vals L j = true :=
          (swingLowQual_iff vals L j hj1 hj2).mpr hjq
        have hfalse := h4 j hji (by omega)
        rw [hqj] at hfalse
        cases hfalse
      · rintro ⟨⟨h1, h2, h3⟩, hmax⟩
        refine ⟨h1, by omega, (swingLowQual_iff vals L i h1 h2).mpr h3, ?_⟩
        intro j hj1 hj2
        by_contra hpj
        rw [Bool.not_eq_false] at hpj
        have hj2' : j + L < vals.length := by omega
        have hjL : L ≤ j := by omega
        have hIs : IsConfirmedSwingLow vals L j :=
          ⟨hjL, hj2', (swingLowQual_iff vals L j hjL hj2').mp hpj⟩
        exact absurd (hmax j hIs) (by omega)
    · rw [last_low_eq, if_neg hn, revRange_find?_none]
      constructor
      · rintro h i ⟨h1, h2, h3⟩
        have hq : swingLowQual vals L i = true :=
          (swingLowQual_iff vals L i h1 h2).mpr h3
        have hfalse := h i h1 (by omega)
        rw [hq] at hfalse
        cases hfalse
      · intro h j hj1 hj2
        by_contra hpj
        rw [Bool.not_eq_false] at hpj
        have hj2' : j + L < vals.length := by omega
        exact h j ⟨hj1, hj2', (swingLowQual_iff vals L j hj1 hj2').mp hpj⟩
    · intro i
      unfold last_confirmed_swing_high
      rw [if_neg hn, revRange_find?_some]
      constructor
      · rintro ⟨h1, h2, h3, h4⟩
        have hi2 : i + L < vals.length := by omega
        have hq := (swingHighQual_iff vals L i h1 hi2).mp h3
        refine ⟨⟨h1, hi2, hq⟩, ?_⟩
        rintro j ⟨hj1, hj2, hjq⟩
        by_contra hji
        push_neg at hji
        have hqj : swingHighQual vals L j = true :=
          (swingHighQual_iff vals L j hj1 hj2).mpr hjq
        have hfalse := h4 j hji (by omega)
        rw [hqj] at hfalse
        cases hfalse
      · rintro ⟨⟨h1, h2, h3⟩, hmax⟩
        refine ⟨h1, by omega, (swingHighQual_iff vals L i h1 h2).mpr h3, ?_⟩
        intro j hj1 hj2
        by_contra hpj
        rw [Bool.not_eq_false] at hpj
        have hj2' : j + L < vals.length := by omega
        have hjL : L ≤ j := by omega
        have hIs : IsConfirmedSwingHigh vals L j :=
          ⟨hjL, hj2', (swingHighQual_iff vals L j hjL hj2').mp hpj⟩
        exact absurd (hmax j hIs) (by omega)
    · unfold last_confirmed_swing_high
      rw [if_neg hn, revRange_find?_none]
      constructor
      · rintro h i ⟨h1, h2, h3⟩
        have hq : swingHighQual vals L i = true :=
          (swingHighQual_iff vals L i h1 h2).mpr h3
        have hfalse := h i h1 (by omega)
        rw [hq] at hfalse
        cases hfalse
      · intro h j hj1 hj2
        by_contra hpj
        rw [Bool.not_eq_false] at hpj
        have hj2' : j + L < vals.length := by omega
        exact h j ⟨hj1, hj2', (swingHighQual_iff vals L j hj1 hj2').mp hpj⟩


/-- Claim C8 witness: the characterization applied to concrete lists - index
1 is the confirmed swing low of `[5, 1, 5]` and index 3 (the most recent of
the two pivot highs) is the confirmed swing high of `[1, 5, 1, 6, 1]` for
lookback 1. -/
theorem c8_pivot_recency_witness :
    IsConfirmedSwingLow [5, 1, 5] 1 1 ∧ IsConfirmedSwingHigh [1, 5, 1, 6, 1] 1 3 :=
  ⟨(((c8_pivot_recency [5, 1, 5] 1).1 1).mp (by decide)).1,
   (((c8_pivot_recency [1, 5, 1, 6, 1] 1).2.2.1 3).mp (by decide)).1⟩


end ClaimTheorems
